import Mathlib

/-!
Shallow embedding of `qcodes/instrument/remote.py`: the `RemoteInstrument`
proxy and its member proxies (`RemoteComponent`, `RemoteMethod`,
`RemoteParameter`, `RemoteFunction`).

Attribute values, server values and request arguments are modelled as
strings; instance-attribute namespaces and the three member mappings are
association lists with Python-dict semantics (first-match lookup, update in
place, insertion-order append for new keys).  Calls that go through the
server session manager return, next to their result, the list of requests
they issued, so "issues no server call" is the statement that this list is
empty.  A missing `_manager` attribute (after `del self._manager` in
`close`) is modelled as `manager = none`; reading it then is the Python
`AttributeError`.
-/

namespace RemoteProxy

/-- First-match association-list lookup (Python `d[k]` read semantics). -/
def alookup {α : Type} : List (String × α) → String → Option α
  | [], _ => none
  | (k, v) :: rest, key => if k = key then some v else alookup rest key

/-- Python-dict write semantics: update in place if the key exists, append
otherwise. -/
def assocSet : List (String × String) → String → String → List (String × String)
  | [], key, value => [(key, value)]
  | (k, v) :: rest, key, value =>
    if k = key then (key, value) :: rest else (k, v) :: assocSet rest key value

/-- The keys of an association list, in order. -/
def keys {α : Type} (l : List (String × α)) : List String := l.map Prod.fst

/-- A server value: either a plain value or an attribute dictionary (as
returned by `add_parameter` / `add_function`). -/
inductive SrvValue : Type
  | val (s : String)
  | attrDict (a : List (String × String))
deriving DecidableEq

/-- Errors, mirroring the Python exceptions that the embedded code paths can
raise. -/
inductive Err : Type
  | keyError (key : String)
  | attributeError (name : String)
  | attributeNotFound (proxyName : String) (key : String)
  | typeError (msg : String)
  | serverError (msg : String)
  | invalidValue (value : String)
deriving DecidableEq

/-- A request issued through the server session manager. -/
inductive Request : Type
  | connect (args : List String) (kwargs : List (String × String))
  | ask (channel : String) (id : Nat) (funcName : String)
      (args : List String) (kwargs : List (String × String))
  | write (channel : String) (id : Nat) (funcName : String)
      (args : List String) (kwargs : List (String × String))
  | delete (id : Nat)
  | restartServer
deriving DecidableEq

/-- The capability manifest (`connection_attrs`) returned by
`manager.connect`: name, id, and the three per-kind attribute mappings. -/
structure Manifest : Type where
  name : String
  id : Nat
  methods : List (String × List (String × String))
  parameters : List (String × List (String × String))
  functions : List (String × List (String × String))
deriving DecidableEq

/-- The server session manager (`self._manager`), an external collaborator:
whether its server process is in `mp.active_children()`, what its `connect`
returns, and how it answers `ask` requests. -/
structure ServerManager : Type where
  serverAlive : Bool
  connectResult : Except String Manifest
  respond : String → Nat → String → List String → List (String × String) → SrvValue

/-- A member proxy (`RemoteComponent` and its subclasses).  `kind` is
`type(self).__name__`; `ns` is the instance-attribute namespace written by
`__init__` (`self.name = name` followed by the `setattr` loop). -/
structure RemoteComponent : Type where
  kind : String
  ns : List (String × String)
deriving DecidableEq

/-- `self.name` of a member proxy: the `name` entry of its namespace. -/
def RemoteComponent.nameAttr (c : RemoteComponent) : String :=
  (alookup c.ns "name").getD ""

/-- The documentation string produced by `RemoteComponent.__init__` for a
non-empty manifest doc: `'{} {} in RemoteInstrument {}\n---\n\n{}'.format(
type(self).__name__, self.name, instrument.name, value)`. -/
def docRewrite (kind name instrumentName value : String) : String :=
  kind ++ " " ++ name ++ " in RemoteInstrument " ++ instrumentName ++
    "\n---\n\n" ++ value

/-- One iteration of the `for attribute, value in attrs.items()` loop of
`RemoteComponent.__init__`: rewrite a non-empty `__doc__`, then
`setattr(self, attribute, value)`. -/
def RemoteComponent.setOne (instrumentName : String) (c : RemoteComponent)
    (av : String × String) : RemoteComponent :=
  let value :=
    if av.1 = "__doc__" ∧ av.2 ≠ "" then
      docRewrite c.kind c.nameAttr instrumentName av.2
    else av.2
  { c with ns := assocSet c.ns av.1 value }

/-- `RemoteComponent.__init__(name, instrument, attrs)`: set `self.name`,
then run the attribute loop.  (`self._instrument` is modelled by passing the
instrument explicitly to each operation.) -/
def mkComponent (kind name instrumentName : String)
    (attrs : List (String × String)) : RemoteComponent :=
  attrs.foldl (RemoteComponent.setOne instrumentName)
    { kind := kind, ns := [("name", name)] }

/-- Registry side effects and session requests observable from outside the
proxy. -/
inductive Effect : Type
  | request (r : Request)
  | recordInstance (ref : Nat)
  | removeInstance (ref : Nat)
deriving DecidableEq

/-- The backing instrument class, an external collaborator: which keyword
arguments it declares as shared, and its `default_server_name`. -/
structure InstrumentClass : Type where
  sharedKwargs : List String
  defaultServerName : List (String × String) → String

/-- The `RemoteInstrument` proxy state.  `ref` identifies the proxy object in
the backing class's instance registry; `manager = none` models the state
after `del self._manager`. -/
structure RemoteInstrument : Type where
  ref : Nat
  name : String
  id : Nat
  serverName : String
  sharedKwargs : List (String × String)
  ctorArgs : List String
  ctorKwargs : List (String × String)
  manager : Option ServerManager
  methods : List (String × RemoteComponent)
  parameters : List (String × RemoteComponent)
  functions : List (String × RemoteComponent)

namespace RemoteInstrument

/-- `RemoteInstrument.delegate_attr_dicts`, verbatim from the source. -/
def delegate_attr_dicts : List String := ["_methods", "parameters", "functions"]

/-- The member mapping a delegation-dictionary name refers to
(`getattr(self, name)` for the names in `delegate_attr_dicts`). -/
def attrDict (self : RemoteInstrument) (dictName : String) :
    List (String × RemoteComponent) :=
  if dictName = "_methods" then self.methods
  else if dictName = "parameters" then self.parameters
  else if dictName = "functions" then self.functions
  else []

/-- Modelled from the spec: `DelegateAttributes.__getattr__`
(`qcodes/utils/helpers.py`, not under `src/`) resolves an attribute not found
directly on the proxy by consulting the dictionaries named in
`delegate_attr_dicts` in order, first match winning, and raises an
attribute-not-found error naming the proxy when none contains the key. -/
def delegateLookup (self : RemoteInstrument) :
    List String → String → Except Err RemoteComponent
  | [], key => .error (.attributeNotFound self.name key)
  | d :: rest, key =>
    match alookup (self.attrDict d) key with
    | some c => .ok c
    | none => delegateLookup self rest key

/-- Attribute delegation on the proxy: lookup through `delegate_attr_dicts`. -/
def getAttr (self : RemoteInstrument) (key : String) : Except Err RemoteComponent :=
  delegateLookup self delegate_attr_dicts key

/-- `RemoteInstrument.connect`: ask the manager to create the server copy,
then rebuild name, id, and the three member-proxy mappings from the returned
manifest.  Also returns the requests issued. -/
def connect (self : RemoteInstrument) :
    Except Err RemoteInstrument × List Request :=
  match self.manager with
  | none => (.error (.attributeError "_manager"), [])
  | some m =>
    let issued := [Request.connect self.ctorArgs self.ctorKwargs]
    match m.connectResult with
    | .error e => (.error (.serverError e), issued)
    | .ok ca =>
      (.ok { self with
        name := ca.name
        id := ca.id
        methods := ca.methods.map
          (fun p => (p.1, mkComponent "RemoteMethod" p.1 ca.name p.2))
        parameters := ca.parameters.map
          (fun p => (p.1, mkComponent "RemoteParameter" p.1 ca.name p.2))
        functions := ca.functions.map
          (fun p => (p.1, mkComponent "RemoteFunction" p.1 ca.name p.2)) },
       issued)

/-- `RemoteInstrument._ask_server`: `self._manager.ask('cmd', self._id,
func_name, *args, **kwargs)`.  With no `_manager` attribute this is the
`AttributeError` of reading `self._manager`. -/
def askServer (self : RemoteInstrument) (funcName : String) (args : List String)
    (kwargs : List (String × String)) : Except Err SrvValue × List Request :=
  match self.manager with
  | none => (.error (.attributeError "_manager"), [])
  | some m =>
    (.ok (m.respond "cmd" self.id funcName args kwargs),
     [Request.ask "cmd" self.id funcName args kwargs])

/-- `RemoteInstrument.add_parameter`: ask the server, then insert a new
`RemoteParameter` built from the returned attributes. -/
def addParameter (self : RemoteInstrument) (name : String)
    (kwargs : List (String × String)) : Except Err RemoteInstrument × List Request :=
  match self.askServer "add_parameter" [name] kwargs with
  | (.error e, tr) => (.error e, tr)
  | (.ok (.val s), tr) => (.error (.typeError s), tr)
  | (.ok (.attrDict attrs), tr) =>
    (.ok { self with parameters :=
        self.parameters ++ [(name, mkComponent "RemoteParameter" name self.name attrs)] },
     tr)

/-- `RemoteInstrument.add_function`: ask the server, then insert a new
`RemoteFunction` built from the returned attributes. -/
def addFunction (self : RemoteInstrument) (name : String)
    (kwargs : List (String × String)) : Except Err RemoteInstrument × List Request :=
  match self.askServer "add_function" [name] kwargs with
  | (.error e, tr) => (.error e, tr)
  | (.ok (.val s), tr) => (.error (.typeError s), tr)
  | (.ok (.attrDict attrs), tr) =>
    (.ok { self with functions :=
        self.functions ++ [(name, mkComponent "RemoteFunction" name self.name attrs)] },
     tr)

/-- `RemoteInstrument.close`: if `self._manager` exists, send `delete` when
the server process is still alive and then `del self._manager`; in every
case call `remove_instance` on the backing class. -/
def close (self : RemoteInstrument) : RemoteInstrument × List Effect :=
  match self.manager with
  | some m =>
    ({ self with manager := none },
     (if m.serverAlive then [Effect.request (.delete self.id)] else []) ++
       [Effect.removeInstance self.ref])
  | none => (self, [Effect.removeInstance self.ref])

/-- `RemoteInstrument.restart`: `self.close()` followed by
`self._manager.restart()` — the second step reads the `_manager` attribute
that `close` has just deleted. -/
def restart (self : RemoteInstrument) :
    Except Err RemoteInstrument × List Effect :=
  let closed := self.close
  match closed.1.manager with
  | none => (.error (.attributeError "_manager"), closed.2)
  | some _ =>
    (.ok closed.1, closed.2 ++ [Effect.request Request.restartServer])

/-- `RemoteInstrument.__getitem__`: `try: return self.parameters[key]`
`except KeyError: return self.functions[key]`. -/
def getItem (self : RemoteInstrument) (key : String) : Except Err RemoteComponent :=
  match alookup self.parameters key with
  | some c => .ok c
  | none =>
    match alookup self.functions key with
    | some c => .ok c
    | none => .error (.keyError key)

/-- `RemoteInstrument.__init__`: derive the server name when none is given,
partition the keyword arguments into shared and construction-only, acquire
the manager, record the instance, then `connect`.  Returns the construction
result, the updated instance registry of the backing class, and the effect
trace.  (`record_instance` is modelled from the spec — `Instrument`'s
registry lives outside `src/` — as appending to the registry list.) -/
def init (cls : InstrumentClass)
    (getManager : String → List (String × String) → ServerManager)
    (args : List String) (serverName0 : String) (kwargs : List (String × String))
    (ref : Nat) (registry : List Nat) :
    Except Err RemoteInstrument × List Nat × List Effect :=
  let serverName :=
    if serverName0 = "" then cls.defaultServerName kwargs else serverName0
  let shared := cls.sharedKwargs.filterMap
    (fun k => (alookup kwargs k).map (fun v => (k, v)))
  let rest := kwargs.filter (fun kv => ¬ cls.sharedKwargs.contains kv.1)
  let proxy0 : RemoteInstrument :=
    { ref := ref, name := "", id := 0, serverName := serverName
      sharedKwargs := shared, ctorArgs := args, ctorKwargs := rest
      manager := some (getManager serverName shared)
      methods := [], parameters := [], functions := [] }
  let registry1 := registry ++ [ref]
  let connected := proxy0.connect
  (connected.1, registry1,
   Effect.recordInstance ref :: connected.2.map Effect.request)

end RemoteInstrument

namespace RemoteMethod

/-- `RemoteMethod.__call__`: `self._instrument._ask_server(self.name, *args,
**kwargs)`. -/
def call (inst : RemoteInstrument) (name : String) (args : List String)
    (kwargs : List (String × String)) : Except Err SrvValue × List Request :=
  inst.askServer name args kwargs

end RemoteMethod

/-- Modelled from the spec: `Parameter.validate`
(`qcodes/instrument/parameter.py`, not under `src/`) runs the parameter's
local validator on the proposed value and raises when it rejects; it is
purely local and issues no session interaction.  The validator itself is
opaque metadata, modelled as a predicate. -/
def Parameter.validate (allowed : String → Bool) (value : String) :
    Except Err Unit × List Request :=
  ((if allowed value then .ok () else .error (.invalidValue value)), [])

/-- Modelled from the spec: `Function.validate`
(`qcodes/instrument/function.py`, not under `src/`) runs the function's
local validator on the proposed positional arguments and raises when it
rejects; it is purely local and issues no session interaction. -/
def Function.validate (allowed : List String → Bool) (args : List String) :
    Except Err Unit × List Request :=
  ((if allowed args then .ok () else .error (.invalidValue (String.intercalate ", " args))), [])

namespace RemoteParameter

/-- `RemoteParameter.get`: `self._instrument._ask_server('get', self.name)`. -/
def get (inst : RemoteInstrument) (name : String) :
    Except Err SrvValue × List Request :=
  inst.askServer "get" [name] []

/-- `RemoteParameter.set`: `self._instrument._ask_server('set', self.name,
value)`; the response is discarded. -/
def set (inst : RemoteInstrument) (name : String) (value : String) :
    Except Err Unit × List Request :=
  let r := inst.askServer "set" [name, value] []
  (r.1.map (fun _ => ()), r.2)

/-- `RemoteParameter.__call__`: get with no args, set with one; with two or
more args, binding them to `set(self, value)` raises a `TypeError` before
anything is sent. -/
def call (inst : RemoteInstrument) (name : String) (args : List String) :
    Except Err (Option SrvValue) × List Request :=
  match args with
  | [] =>
    let r := get inst name
    (r.1.map some, r.2)
  | [v] =>
    let r := set inst name v
    (r.1.map (fun _ => none), r.2)
  | _ =>
    (.error (.typeError "set() takes 2 positional arguments"), [])

/-- `RemoteParameter.validate`: delegates to the local `Parameter.validate`,
not to `_ask_server`; `self._instrument` is not consulted. -/
def validate (_inst : RemoteInstrument) (allowed : String → Bool)
    (value : String) : Except Err Unit × List Request :=
  Parameter.validate allowed value

/-- `RemoteParameter.callattr`: `self._instrument._ask_server('callattr',
self.name + '.' + attr, *args, **kwargs)`. -/
def callattr (inst : RemoteInstrument) (name attr : String) (args : List String)
    (kwargs : List (String × String)) : Except Err SrvValue × List Request :=
  inst.askServer "callattr" ((name ++ "." ++ attr) :: args) kwargs

/-- `RemoteParameter.snapshot`: `self._instrument._ask_server('callattr',
self.name + '.snapshot', update)`. -/
def snapshot (inst : RemoteInstrument) (name : String) (update : Bool) :
    Except Err SrvValue × List Request :=
  inst.askServer "callattr" [name ++ ".snapshot", if update then "True" else "False"] []

end RemoteParameter

namespace RemoteFunction

/-- `RemoteFunction.__call__`: `self._instrument._ask_server('call',
self.name, *args)`. -/
def call (inst : RemoteInstrument) (name : String) (args : List String) :
    Except Err SrvValue × List Request :=
  inst.askServer "call" (name :: args) []

/-- `RemoteFunction.validate`: delegates to the local `Function.validate`,
not to `_ask_server`; `self._instrument` is not consulted. -/
def validate (_inst : RemoteInstrument) (allowed : List String → Bool)
    (args : List String) : Except Err Unit × List Request :=
  Function.validate allowed args

end RemoteFunction

/-! Derived description of member-proxy construction, and concrete fixtures
used to evaluate the theorems on closed inputs. -/

/-- The value `RemoteComponent.__init__` stores for a manifest attribute
`k ↦ v` of a member named `n`: a non-empty doc is rewritten, everything else
is copied verbatim. -/
def storedVal (kind n instrumentName k v : String) : String :=
  if k = "__doc__" ∧ v ≠ "" then docRewrite kind n instrumentName v else v

/-- A member proxy matches a manifest entry `n ↦ a`: right kind, name equal
to the key, non-doc attributes copied unchanged, and the doc equal to the
manifest doc, rewritten when non-empty. -/
def matchesEntry (kind instrumentName n : String) (a : List (String × String))
    (c : RemoteComponent) : Prop :=
  c.kind = kind ∧ c.nameAttr = n ∧
  (∀ k, k ≠ "name" → k ≠ "__doc__" → alookup c.ns k = alookup a k) ∧
  (∀ d, alookup a "__doc__" = some d →
    alookup c.ns "__doc__" =
      some (if d = "" then d else docRewrite kind n instrumentName d))

/-- A member proxy standing in for parameter `p`. -/
def cP : RemoteComponent := ⟨"RemoteParameter", [("name", "p")]⟩

/-- A member proxy standing in for function `f`. -/
def cF : RemoteComponent := ⟨"RemoteFunction", [("name", "f")]⟩

/-- A member proxy standing in for method `m`. -/
def cM : RemoteComponent := ⟨"RemoteMethod", [("name", "m")]⟩

/-- A proxy with one method, one parameter and one function, no session. -/
def instC3 : RemoteInstrument :=
  { ref := 0, name := "inst3", id := 0, serverName := "s", sharedKwargs := []
    ctorArgs := [], ctorKwargs := [], manager := none
    methods := [("m", cM)], parameters := [("p", cP)], functions := [("f", cF)] }

/-- A session manager whose server process is alive. -/
def mgrAlive : ServerManager :=
  ⟨true, .error "unused", fun _ _ _ _ _ => .val "r"⟩

/-- A session manager whose server process has died. -/
def mgrDead : ServerManager :=
  ⟨false, .error "unused", fun _ _ _ _ _ => .val "r"⟩

/-- A connected proxy whose server process is alive. -/
def pAlive : RemoteInstrument :=
  { ref := 2, name := "a", id := 5, serverName := "s", sharedKwargs := []
    ctorArgs := [], ctorKwargs := [], manager := some mgrAlive
    methods := [], parameters := [], functions := [] }

/-- A connected proxy whose server process has died. -/
def pDead : RemoteInstrument :=
  { ref := 3, name := "d", id := 6, serverName := "s", sharedKwargs := []
    ctorArgs := [], ctorKwargs := [], manager := some mgrDead
    methods := [], parameters := [], functions := [] }

/-- A proxy with no session attached. -/
def pNone : RemoteInstrument :=
  { ref := 4, name := "n", id := 7, serverName := "s", sharedKwargs := []
    ctorArgs := [], ctorKwargs := [], manager := none
    methods := [], parameters := [], functions := [] }

/-- The manifest used by the C2 witness. -/
def caC2 : Manifest :=
  ⟨"src1", 7, [("reset", [("__doc__", "resets")])],
    [("freq", [("unit", "Hz"), ("__doc__", "docs")])],
    [("trig", [])]⟩

/-- A session manager answering `connect` with `caC2`. -/
def mgrC2 : ServerManager := ⟨true, .ok caC2, fun _ _ _ _ _ => .val "r"⟩

/-- A fresh proxy about to `connect` through `mgrC2`. -/
def instC2 : RemoteInstrument :=
  { ref := 1, name := "", id := 0, serverName := "s", sharedKwargs := []
    ctorArgs := [], ctorKwargs := [], manager := some mgrC2
    methods := [], parameters := [], functions := [] }

/-- A manifest whose single parameter entry carries a `name` attribute that
differs from its key. -/
def caCexC2 : Manifest := ⟨"inst0", 3, [], [("foo", [("name", "bar")])], []⟩

/-- A session manager answering `connect` with `caCexC2`. -/
def mgrCexC2 : ServerManager := ⟨true, .ok caCexC2, fun _ _ _ _ _ => .val "r"⟩

/-- A fresh proxy about to `connect` through `mgrCexC2`. -/
def instCexC2 : RemoteInstrument :=
  { ref := 0, name := "", id := 0, serverName := "s", sharedKwargs := []
    ctorArgs := [], ctorKwargs := [], manager := some mgrCexC2
    methods := [], parameters := [], functions := [] }

/-- A backing class declaring `addr` as its only shared keyword argument,
whose default server name depends on whether the kwarg `other` is present. -/
def clsC9 : InstrumentClass :=
  ⟨["addr"],
   fun kw => if (alookup kw "other").isSome then "usedOther" else "sharedOnly"⟩

/-- A manager getter whose managers connect successfully. -/
def gmOk : String → List (String × String) → ServerManager :=
  fun _ _ => ⟨true, .ok ⟨"i0", 1, [], [], []⟩, fun _ _ _ _ _ => .val "r"⟩

/-- A manager getter whose managers fail to connect. -/
def gmFail : String → List (String × String) → ServerManager :=
  fun _ _ => ⟨true, .error "boom", fun _ _ _ _ _ => .val "r"⟩


/-- The proxy `instC2` becomes after a successful `connect` through
`mgrC2`. -/
def pC2 : RemoteInstrument :=
  { instC2 with
    name := "src1"
    id := 7
    methods := caC2.methods.map
      (fun q => (q.1, mkComponent "RemoteMethod" q.1 "src1" q.2))
    parameters := caC2.parameters.map
      (fun q => (q.1, mkComponent "RemoteParameter" q.1 "src1" q.2))
    functions := caC2.functions.map
      (fun q => (q.1, mkComponent "RemoteFunction" q.1 "src1" q.2)) }

/-- The proxy produced by constructing against `clsC9` through `gmOk` with
kwargs `addr=a1` and no server name. -/
def pC9 : RemoteInstrument :=
  { ref := 1, name := "i0", id := 1, serverName := "sharedOnly"
    sharedKwargs := [("addr", "a1")], ctorArgs := [], ctorKwargs := []
    manager := some (gmOk "sharedOnly" [("addr", "a1")])
    methods := [], parameters := [], functions := [] }

/-! Association-list lemmas. -/

theorem alookup_cons {α : Type} (k : String) (v : α) (rest : List (String × α))
    (key : String) :
    alookup ((k, v) :: rest) key = if k = key then some v else alookup rest key := rfl

theorem keys_cons {α : Type} (k : String) (v : α) (rest : List (String × α)) :
    keys ((k, v) :: rest) = k :: keys rest := rfl

theorem keys_append {α : Type} (l l2 : List (String × α)) :
    keys (l ++ l2) = keys l ++ keys l2 := by
  simp [keys]

theorem alookup_append_left {α : Type} (l l2 : List (String × α)) (key : String)
    (v : α) (h : alookup l key = some v) : alookup (l ++ l2) key = some v := by
  induction l with
  | nil => simp [alookup] at h
  | cons kv rest ih =>
    obtain ⟨k, w⟩ := kv
    by_cases hk : k = key
    · rw [alookup_cons, if_pos hk] at h
      rw [List.cons_append, alookup_cons, if_pos hk]
      exact h
    · rw [alookup_cons, if_neg hk] at h
      rw [List.cons_append, alookup_cons, if_neg hk]
      exact ih h

theorem alookup_eq_none {α : Type} (l : List (String × α)) (key : String)
    (h : key ∉ keys l) : alookup l key = none := by
  induction l with
  | nil => rfl
  | cons kv rest ih =>
    obtain ⟨k, w⟩ := kv
    rw [keys_cons, List.mem_cons] at h
    push_neg at h
    have hk : ¬ (k = key) := fun e => h.1 e.symm
    rw [alookup_cons, if_neg hk]
    exact ih h.2

theorem assocSet_of_not_mem (l : List (String × String)) (key value : String)
    (h : key ∉ keys l) : assocSet l key value = l ++ [(key, value)] := by
  induction l with
  | nil => rfl
  | cons kv rest ih =>
    obtain ⟨k, w⟩ := kv
    rw [keys_cons, List.mem_cons] at h
    push_neg at h
    have hk : ¬ (k = key) := fun e => h.1 e.symm
    simp only [assocSet, if_neg hk, List.cons_append]
    rw [ih h.2]

theorem alookup_map_val (f : String → String → String)
    (a : List (String × String)) (key : String) :
    alookup (a.map (fun av => (av.1, f av.1 av.2))) key =
      (alookup a key).map (f key) := by
  induction a with
  | nil => rfl
  | cons av rest ih =>
    obtain ⟨k, v⟩ := av
    by_cases hk : k = key
    · subst hk
      simp [alookup_cons]
    · simp [alookup_cons, hk, ih]

theorem keys_map {β : Type} (g : String → List (String × String) → β)
    (xs : List (String × List (String × String))) :
    keys (xs.map (fun p => (p.1, g p.1 p.2))) = keys xs := by
  simp only [keys, List.map_map]
  rfl

theorem alookup_map_mem {β : Type} (g : String → List (String × String) → β)
    (xs : List (String × List (String × String))) (n : String)
    (a : List (String × String)) (hnd : (keys xs).Nodup) (hmem : (n, a) ∈ xs) :
    alookup (xs.map (fun p => (p.1, g p.1 p.2))) n = some (g n a) := by
  induction xs with
  | nil => simp at hmem
  | cons p rest ih =>
    obtain ⟨k, attrs⟩ := p
    rw [keys_cons, List.nodup_cons] at hnd
    rw [List.mem_cons] at hmem
    rcases hmem with h | h
    · injection h with h1 h2
      subst h1
      subst h2
      simp [alookup_cons]
    · have hk : ¬ (k = n) := by
        intro e
        subst e
        exact hnd.1 (List.mem_map_of_mem Prod.fst h)
      simp only [List.map_cons, alookup_cons, if_neg hk]
      exact ih hnd.2 h

/-! Member-proxy construction lemmas. -/

theorem foldl_setOne_kind (instrumentName : String) :
    ∀ (attrs : List (String × String)) (c : RemoteComponent),
    (attrs.foldl (RemoteComponent.setOne instrumentName) c).kind = c.kind := by
  intro attrs
  induction attrs with
  | nil => intro c; rfl
  | cons av rest ih =>
    intro c
    rw [List.foldl_cons, ih]
    rfl

theorem foldl_setOne (instrumentName nm : String) :
    ∀ (attrs : List (String × String)) (c : RemoteComponent),
    (keys attrs).Nodup → (∀ k ∈ keys attrs, k ∉ keys c.ns) →
    alookup c.ns "name" = some nm →
    attrs.foldl (RemoteComponent.setOne instrumentName) c =
      ⟨c.kind, c.ns ++ attrs.map
        (fun av => (av.1, storedVal c.kind nm instrumentName av.1 av.2))⟩ := by
  intro attrs
  induction attrs with
  | nil =>
    intro c _ _ _
    simp
  | cons av rest ih =>
    intro c hnd hfresh hname
    obtain ⟨k, v⟩ := av
    rw [keys_cons, List.nodup_cons] at hnd
    have hkc : k ∉ keys c.ns :=
      hfresh k (by rw [keys_cons]; exact List.mem_cons_self k _)
    have hna : c.nameAttr = nm := by
      rw [RemoteComponent.nameAttr, hname]
      rfl
    have hstep : RemoteComponent.setOne instrumentName c (k, v) =
        ⟨c.kind, c.ns ++ [(k, storedVal c.kind nm instrumentName k v)]⟩ := by
      rw [RemoteComponent.setOne, storedVal, hna]
      simp only [assocSet_of_not_mem c.ns k _ hkc]
    rw [List.foldl_cons, hstep]
    have hrest := ih ⟨c.kind, c.ns ++ [(k, storedVal c.kind nm instrumentName k v)]⟩
      hnd.2
      (by
        intro k2 hk2
        rw [keys_append, keys_cons]
        intro e
        rw [List.mem_append] at e
        rcases e with e1 | e1
        · exact hfresh k2 (by rw [keys_cons]; exact List.mem_cons_of_mem k hk2) e1
        · rw [List.mem_cons] at e1
          rcases e1 with e2 | e2
          · exact hnd.1 (e2 ▸ hk2)
          · simp [keys] at e2)
      (alookup_append_left c.ns _ "name" nm hname)
    rw [hrest]
    simp [List.append_assoc]

theorem mkComponent_eq (kind n instrumentName : String)
    (attrs : List (String × String)) (hnd : (keys attrs).Nodup)
    (hname : "name" ∉ keys attrs) :
    mkComponent kind n instrumentName attrs =
      ⟨kind, ("name", n) :: attrs.map
        (fun av => (av.1, storedVal kind n instrumentName av.1 av.2))⟩ := by
  have h := foldl_setOne instrumentName n attrs ⟨kind, [("name", n)]⟩ hnd
    (by
      intro k hk
      intro e
      rw [show keys ([("name", n)] : List (String × String)) = ["name"] from rfl,
        List.mem_singleton] at e
      subst e
      exact hname hk)
    (by rw [alookup_cons, if_pos rfl])
  rw [mkComponent, h]
  rfl

theorem mkComponent_matches (kind n instrumentName : String)
    (attrs : List (String × String)) (hnd : (keys attrs).Nodup)
    (hname : "name" ∉ keys attrs) :
    matchesEntry kind instrumentName n attrs
      (mkComponent kind n instrumentName attrs) := by
  rw [matchesEntry, mkComponent_eq kind n instrumentName attrs hnd hname]
  refine ⟨rfl, ?_, ?_, ?_⟩
  · rw [RemoteComponent.nameAttr]
    rfl
  · intro k hk1 hk2
    have hne : ¬ (("name" : String) = k) := fun e => hk1 e.symm
    show alookup (("name", n) ::
        attrs.map (fun av => (av.1, storedVal kind n instrumentName av.1 av.2))) k =
      alookup attrs k
    rw [alookup_cons, if_neg hne, alookup_map_val (storedVal kind n instrumentName)]
    cases h : alookup attrs k with
    | none => rfl
    | some v =>
      have hnd2 : ¬ (k = "__doc__" ∧ v ≠ "") := fun hc => hk2 hc.1
      simp [storedVal, hnd2]
  · intro d hd
    have hne : ¬ (("name" : String) = "__doc__") := by decide
    show alookup (("name", n) ::
        attrs.map (fun av => (av.1, storedVal kind n instrumentName av.1 av.2))) "__doc__" =
      some (if d = "" then d else docRewrite kind n instrumentName d)
    rw [alookup_cons, if_neg hne,
      alookup_map_val (storedVal kind n instrumentName), hd]
    by_cases hde : d = ""
    · subst hde
      simp [storedVal]
    · simp [storedVal, hde]

/-! Claim theorems. -/

/-- C1: `restart()` performs `close()` and then fails with the missing
`_manager` attribute error: because `close` has deleted `_manager`,
`restart` never rebuilds the server copy and never issues a server request
through the detached session — its effect trace is exactly that of `close`. -/
theorem c1_restart_after_close (self : RemoteInstrument) :
    self.restart = (.error (.attributeError "_manager"), self.close.2) := by
  cases h : self.manager <;>
    simp [RemoteInstrument.restart, RemoteInstrument.close, h]

/-- C3: indexed lookup resolves against `parameters` first, falls back to
`functions`, raises a `KeyError` when the key is absent from both, and never
reaches a name present only in `methods`. -/
theorem c3_getitem_resolution (self : RemoteInstrument) (key : String) :
    (∀ c, alookup self.parameters key = some c → self.getItem key = .ok c) ∧
    (alookup self.parameters key = none →
      ∀ c, alookup self.functions key = some c → self.getItem key = .ok c) ∧
    (alookup self.parameters key = none → alookup self.functions key = none →
      self.getItem key = .error (.keyError key)) ∧
    (alookup self.parameters key = none → alookup self.functions key = none →
      ∀ c, alookup self.methods key = some c →
        self.getItem key = .error (.keyError key)) := by
  refine ⟨?_, ?_, ?_, ?_⟩
  · intro c hc
    simp [RemoteInstrument.getItem, hc]
  · intro hp c hc
    simp [RemoteInstrument.getItem, hp, hc]
  · intro hp hf
    simp [RemoteInstrument.getItem, hp, hf]
  · intro hp hf c _
    simp [RemoteInstrument.getItem, hp, hf]

/-- C3 witness: concrete indexed lookups on `instC3`, whose mappings hold
parameter `p`, function `f` and method `m`. -/
theorem c3_witness :
    instC3.getItem "p" = .ok cP ∧ instC3.getItem "f" = .ok cF ∧
    instC3.getItem "zz" = .error (.keyError "zz") ∧
    instC3.getItem "m" = .error (.keyError "m") :=
  ⟨(c3_getitem_resolution instC3 "p").1 cP rfl,
   (c3_getitem_resolution instC3 "f").2.1 rfl cF rfl,
   (c3_getitem_resolution instC3 "zz").2.2.1 rfl rfl,
   (c3_getitem_resolution instC3 "m").2.2.2 rfl rfl cM rfl⟩

/-- C4: attribute delegation consults `_methods`, then `parameters`, then
`functions`, in the fixed order of `delegate_attr_dicts`, first match
winning; unresolved names fail with an attribute-not-found error naming the
proxy. -/
theorem c4_attribute_delegation (self : RemoteInstrument) (key : String) :
    (∀ c, alookup self.methods key = some c → self.getAttr key = .ok c) ∧
    (alookup self.methods key = none →
      ∀ c, alookup self.parameters key = some c → self.getAttr key = .ok c) ∧
    (alookup self.methods key = none → alookup self.parameters key = none →
      ∀ c, alookup self.functions key = some c → self.getAttr key = .ok c) ∧
    (alookup self.methods key = none → alookup self.parameters key = none →
      alookup self.functions key = none →
      self.getAttr key = .error (.attributeNotFound self.name key)) := by
  refine ⟨?_, ?_, ?_, ?_⟩ <;>
    · intros
      simp [RemoteInstrument.getAttr, RemoteInstrument.delegateLookup,
        RemoteInstrument.delegate_attr_dicts, RemoteInstrument.attrDict, *]

/-- C4 witness: concrete delegated lookups on `instC3`. -/
theorem c4_witness :
    instC3.getAttr "m" = .ok cM ∧ instC3.getAttr "p" = .ok cP ∧
    instC3.getAttr "f" = .ok cF ∧
    instC3.getAttr "zz" = .error (.attributeNotFound "inst3" "zz") :=
  ⟨(c4_attribute_delegation instC3 "m").1 cM rfl,
   (c4_attribute_delegation instC3 "p").2.1 rfl cP rfl,
   (c4_attribute_delegation instC3 "f").2.2.1 rfl rfl cF rfl,
   (c4_attribute_delegation instC3 "zz").2.2.2 rfl rfl rfl⟩

/-- C5: calling a Parameter Proxy with zero args performs `get` and returns
its value, with exactly one arg performs `set` and returns nothing, and with
two or more args fails with a `TypeError` before any request is issued. -/
theorem c5_param_call_shortcut (inst : RemoteInstrument) (name v v2 : String)
    (rest : List String) :
    RemoteParameter.call inst name [] =
      ((RemoteParameter.get inst name).1.map some,
        (RemoteParameter.get inst name).2) ∧
    RemoteParameter.call inst name [v] =
      ((RemoteParameter.set inst name v).1.map (fun _ => none),
        (RemoteParameter.set inst name v).2) ∧
    RemoteParameter.call inst name (v :: v2 :: rest) =
      (.error (.typeError "set() takes 2 positional arguments"), []) :=
  ⟨rfl, rfl, rfl⟩

/-- C6: `close()` sends a `delete` request only when a session is attached
and its server process is still alive, detaches the session whenever one is
attached, and in every case deregisters the proxy from the backing class's
instance registry. -/
theorem c6_close_behavior (self : RemoteInstrument) :
    (∀ m, self.manager = some m → m.serverAlive = true →
      self.close = ({ self with manager := none },
        [Effect.request (.delete self.id), Effect.removeInstance self.ref])) ∧
    (∀ m, self.manager = some m → m.serverAlive = false →
      self.close = ({ self with manager := none },
        [Effect.removeInstance self.ref])) ∧
    (self.manager = none →
      self.close = (self, [Effect.removeInstance self.ref])) := by
  refine ⟨?_, ?_, ?_⟩
  · intro m hm ha
    simp [RemoteInstrument.close, hm, ha]
  · intro m hm ha
    simp [RemoteInstrument.close, hm, ha]
  · intro h
    simp [RemoteInstrument.close, h]

/-- C6 witness: `close` on a live-session proxy, a dead-session proxy, and a
proxy with no session. -/
theorem c6_witness :
    pAlive.close = ({ pAlive with manager := none },
      [Effect.request (.delete 5), Effect.removeInstance 2]) ∧
    pDead.close = ({ pDead with manager := none }, [Effect.removeInstance 3]) ∧
    pNone.close = (pNone, [Effect.removeInstance 4]) :=
  ⟨(c6_close_behavior pAlive).1 mgrAlive rfl rfl,
   (c6_close_behavior pDead).2.1 mgrDead rfl rfl,
   (c6_close_behavior pNone).2.2 rfl⟩

/-- C7: after `close()` the session is detached, and every session-dependent
operation on the proxy or its member proxies fails with the missing
`_manager` attribute error rather than silently doing nothing. -/
theorem c7_closed_proxy_ops_fail (self : RemoteInstrument) (f n v attr : String)
    (args : List String) (kwargs : List (String × String)) :
    self.close.1.askServer f args kwargs =
      (.error (.attributeError "_manager"), []) ∧
    (RemoteParameter.get self.close.1 n).1 = .error (.attributeError "_manager") ∧
    (RemoteParameter.set self.close.1 n v).1 = .error (.attributeError "_manager") ∧
    (RemoteParameter.call self.close.1 n []).1 = .error (.attributeError "_manager") ∧
    (RemoteParameter.callattr self.close.1 n attr args kwargs).1 =
      .error (.attributeError "_manager") ∧
    (RemoteParameter.snapshot self.close.1 n true).1 =
      .error (.attributeError "_manager") ∧
    (RemoteMethod.call self.close.1 n args kwargs).1 =
      .error (.attributeError "_manager") ∧
    (RemoteFunction.call self.close.1 n args).1 =
      .error (.attributeError "_manager") ∧
    (self.close.1.addParameter n kwargs).1 = .error (.attributeError "_manager") ∧
    (self.close.1.addFunction n kwargs).1 = .error (.attributeError "_manager") ∧
    self.close.1.connect.1 = .error (.attributeError "_manager") := by
  have hm : self.close.1.manager = none := by
    cases h : self.manager <;> simp [RemoteInstrument.close, h]
  refine ⟨?_, ?_, ?_, ?_, ?_, ?_, ?_, ?_, ?_, ?_, ?_⟩ <;>
    simp [RemoteInstrument.askServer, RemoteInstrument.addParameter,
      RemoteInstrument.addFunction, RemoteInstrument.connect,
      RemoteParameter.get, RemoteParameter.set, RemoteParameter.call,
      RemoteParameter.callattr, RemoteParameter.snapshot,
      RemoteMethod.call, RemoteFunction.call, Except.map, hm]

/-- C8: `validate` on a Parameter Proxy and on a Function Proxy runs the
local validator and issues no session request: its request trace is empty
for every input, even on a closed proxy. -/
theorem c8_validate_local (inst : RemoteInstrument) (allowed : String → Bool)
    (allowedF : List String → Bool) (value : String) (args : List String) :
    (RemoteParameter.validate inst allowed value).2 = [] ∧
    (RemoteFunction.validate inst allowedF args).2 = [] :=
  ⟨rfl, rfl⟩

/-! Specializations of the mapping lemmas to member-proxy construction. -/

theorem keys_map_component (kind iname : String)
    (xs : List (String × List (String × String))) :
    keys (xs.map (fun q => (q.1, mkComponent kind q.1 iname q.2))) = keys xs :=
  keys_map (fun nn aa => mkComponent kind nn iname aa) xs

theorem alookup_map_component (kind iname : String)
    (xs : List (String × List (String × String))) (n : String)
    (a : List (String × String)) (hnd : (keys xs).Nodup) (hmem : (n, a) ∈ xs) :
    alookup (xs.map (fun q => (q.1, mkComponent kind q.1 iname q.2))) n =
      some (mkComponent kind n iname a) :=
  alookup_map_mem (fun nn aa => mkComponent kind nn iname aa) xs n a hnd hmem

theorem alookup_map_component_none (kind iname : String)
    (xs : List (String × List (String × String))) (n : String)
    (h : n ∉ keys xs) :
    alookup (xs.map (fun q => (q.1, mkComponent kind q.1 iname q.2))) n = none := by
  refine alookup_eq_none _ n ?_
  intro hmm
  rw [keys_map_component kind iname xs] at hmm
  exact h hmm

/-- C2 (amended): for every manifest whose per-kind name lists are unique and
pairwise disjoint, `connect()` rebuilds all three member mappings from
scratch, from the manifest alone, overwriting any prior entries; each
manifest name then maps to exactly one member proxy of the matching kind,
whose descriptive attributes equal the manifest entry's attributes
unchanged, except that a non-empty documentation string is rewritten to
mention the member kind, name, and owning instrument.  The proxy's `name`
field equals its key in the owning mapping provided the manifest entry does
not itself carry a `name` attribute — the `setattr` loop of
`RemoteComponent.__init__` copies such an attribute over the `name` field,
which is what the counterexample exploits. -/
theorem c2_connect_builds_member_mappings (self : RemoteInstrument)
    (m : ServerManager) (ca : Manifest)
    (hm : self.manager = some m) (hc : m.connectResult = .ok ca)
    (hndM : (keys ca.methods).Nodup) (hndP : (keys ca.parameters).Nodup)
    (hndF : (keys ca.functions).Nodup)
    (hMP : ∀ k ∈ keys ca.methods, k ∉ keys ca.parameters)
    (hMF : ∀ k ∈ keys ca.methods, k ∉ keys ca.functions)
    (hPF : ∀ k ∈ keys ca.parameters, k ∉ keys ca.functions) :
    ∀ p tr, self.connect = (.ok p, tr) →
      p.name = ca.name ∧ p.id = ca.id ∧
      p.methods = ca.methods.map
        (fun q => (q.1, mkComponent "RemoteMethod" q.1 ca.name q.2)) ∧
      p.parameters = ca.parameters.map
        (fun q => (q.1, mkComponent "RemoteParameter" q.1 ca.name q.2)) ∧
      p.functions = ca.functions.map
        (fun q => (q.1, mkComponent "RemoteFunction" q.1 ca.name q.2)) ∧
      (∀ n a, (n, a) ∈ ca.methods → (keys a).Nodup → "name" ∉ keys a →
        alookup p.parameters n = none ∧ alookup p.functions n = none ∧
        alookup p.methods n = some (mkComponent "RemoteMethod" n ca.name a) ∧
        matchesEntry "RemoteMethod" ca.name n a
          (mkComponent "RemoteMethod" n ca.name a)) ∧
      (∀ n a, (n, a) ∈ ca.parameters → (keys a).Nodup → "name" ∉ keys a →
        alookup p.methods n = none ∧ alookup p.functions n = none ∧
        alookup p.parameters n = some (mkComponent "RemoteParameter" n ca.name a) ∧
        matchesEntry "RemoteParameter" ca.name n a
          (mkComponent "RemoteParameter" n ca.name a)) ∧
      (∀ n a, (n, a) ∈ ca.functions → (keys a).Nodup → "name" ∉ keys a →
        alookup p.methods n = none ∧ alookup p.parameters n = none ∧
        alookup p.functions n = some (mkComponent "RemoteFunction" n ca.name a) ∧
        matchesEntry "RemoteFunction" ca.name n a
          (mkComponent "RemoteFunction" n ca.name a)) := by
  intro p tr hconn
  simp only [RemoteInstrument.connect, hm, hc] at hconn
  rw [Prod.mk.injEq] at hconn
  obtain ⟨hok, htr⟩ := hconn
  injection hok with hpe
  subst hpe
  refine ⟨rfl, rfl, rfl, rfl, rfl, ?_, ?_, ?_⟩
  · intro n a hmem hndA hnmA
    have hnM : n ∈ keys ca.methods := List.mem_map_of_mem Prod.fst hmem
    refine ⟨alookup_map_component_none _ _ _ _ (hMP n hnM),
      alookup_map_component_none _ _ _ _ (hMF n hnM),
      alookup_map_component _ _ _ _ _ hndM hmem,
      mkComponent_matches _ _ _ _ hndA hnmA⟩
  · intro n a hmem hndA hnmA
    have hnP : n ∈ keys ca.parameters := List.mem_map_of_mem Prod.fst hmem
    have hnM : n ∉ keys ca.methods := fun hmm => hMP n hmm hnP
    refine ⟨alookup_map_component_none _ _ _ _ hnM,
      alookup_map_component_none _ _ _ _ (hPF n hnP),
      alookup_map_component _ _ _ _ _ hndP hmem,
      mkComponent_matches _ _ _ _ hndA hnmA⟩
  · intro n a hmem hndA hnmA
    have hnF : n ∈ keys ca.functions := List.mem_map_of_mem Prod.fst hmem
    have hnM : n ∉ keys ca.methods := fun hmm => hMF n hmm hnF
    have hnP : n ∉ keys ca.parameters := fun hmm => hPF n hmm hnF
    refine ⟨alookup_map_component_none _ _ _ _ hnM,
      alookup_map_component_none _ _ _ _ hnP,
      alookup_map_component _ _ _ _ _ hndF hmem,
      mkComponent_matches _ _ _ _ hndA hnmA⟩

/-- C2 witness: connecting `instC2` through `mgrC2` (manifest `caC2`) yields
the rebuilt parameter mapping; its entry `freq` is a `RemoteParameter` proxy
named `freq` whose `unit` attribute is copied unchanged and whose doc is the
rewritten manifest doc. -/
theorem c2_witness :
    instC2.connect.1.map (fun p => p.parameters) =
      .ok (caC2.parameters.map
        (fun q => (q.1, mkComponent "RemoteParameter" q.1 "src1" q.2))) ∧
    alookup (caC2.parameters.map
        (fun q => (q.1, mkComponent "RemoteParameter" q.1 "src1" q.2))) "freq" =
      some (mkComponent "RemoteParameter" "freq" "src1"
        [("unit", "Hz"), ("__doc__", "docs")]) ∧
    (mkComponent "RemoteParameter" "freq" "src1"
        [("unit", "Hz"), ("__doc__", "docs")]).nameAttr = "freq" ∧
    alookup (mkComponent "RemoteParameter" "freq" "src1"
        [("unit", "Hz"), ("__doc__", "docs")]).ns "unit" = some "Hz" ∧
    alookup (mkComponent "RemoteParameter" "freq" "src1"
        [("unit", "Hz"), ("__doc__", "docs")]).ns "__doc__" =
      some (docRewrite "RemoteParameter" "freq" "src1" "docs") := by
  obtain ⟨hname, hid, hM, hP, hF, hbM, hbP, hbF⟩ :=
    c2_connect_builds_member_mappings instC2 mgrC2 caC2 rfl rfl
      (by decide) (by decide) (by decide) (by decide) (by decide) (by decide)
      pC2 [Request.connect [] []] rfl
  obtain ⟨hm1, hf1, hp1, hmatch⟩ :=
    hbP "freq" [("unit", "Hz"), ("__doc__", "docs")] (by decide) (by decide)
      (by decide)
  obtain ⟨hkind, hnm, hattrs, hdoc⟩ := hmatch
  refine ⟨rfl, hp1, hnm, ?_, ?_⟩
  · exact (hattrs "unit" (by decide) (by decide)).trans rfl
  · exact (hdoc "docs" rfl).trans (by decide)

/-- C2 counterexample: for manifest `caCexC2`, whose three name sets are
disjoint, the parameter stored under key `foo` carries a manifest `name`
attribute `bar`; after `connect()` the member proxy's `name` field is `bar`,
not its key `foo`, refuting the claim that the name field always equals the
key in the owning mapping. -/
theorem c2_counterexample :
    instCexC2.connect.1.map
        (fun p => (alookup p.parameters "foo").map RemoteComponent.nameAttr) =
      .ok (some "bar") ∧ ("bar" : String) ≠ "foo" :=
  ⟨rfl, by decide⟩

/-- C9 (amended): when no server name is supplied, the proxy derives one by
asking the backing class for a default name computed from the full keyword
argument set — `default_server_name(**kwargs)` runs before the partition, so
non-shared keyword arguments influence the derived name too; the proxy then
partitions the keyword arguments so that exactly the shared ones go to
server selection (the manager is acquired for them) and the remainder are
sent once, as construction-only arguments, with the connect request. -/
theorem c9_init_server_name_and_partition (cls : InstrumentClass)
    (gm : String → List (String × String) → ServerManager)
    (args : List String) (kwargs : List (String × String)) (ref : Nat)
    (registry : List Nat) :
    ∀ p, (RemoteInstrument.init cls gm args "" kwargs ref registry).1 = .ok p →
      p.serverName = cls.defaultServerName kwargs ∧
      p.sharedKwargs = cls.sharedKwargs.filterMap
        (fun k => (alookup kwargs k).map (fun v => (k, v))) ∧
      p.ctorKwargs = kwargs.filter (fun kv => ¬ cls.sharedKwargs.contains kv.1) ∧
      (∀ kv ∈ p.sharedKwargs, kv.1 ∈ cls.sharedKwargs) ∧
      (∀ kv ∈ p.ctorKwargs, kv.1 ∉ cls.sharedKwargs) ∧
      p.manager = some (gm (cls.defaultServerName kwargs) p.sharedKwargs) ∧
      (RemoteInstrument.init cls gm args "" kwargs ref registry).2.2 =
        [Effect.recordInstance ref, Effect.request (.connect args p.ctorKwargs)] := by
  intro p h
  simp only [RemoteInstrument.init, RemoteInstrument.connect, reduceIte] at h ⊢
  cases hc : (gm (cls.defaultServerName kwargs)
      (cls.sharedKwargs.filterMap
        (fun k => (alookup kwargs k).map (fun v => (k, v))))).connectResult with
  | error e =>
    rw [hc] at h
    simp at h
  | ok ca =>
    rw [hc] at h
    simp only [Except.ok.injEq] at h
    subst h
    refine ⟨rfl, rfl, rfl, ?_, ?_, rfl, rfl⟩
    · intro kv hkv
      rcases List.mem_filterMap.mp hkv with ⟨k, hk, he⟩
      rcases Option.map_eq_some.mp he with ⟨v, _, he2⟩
      rw [← he2]
      exact hk
    · intro kv hkv
      have := (List.mem_filter.mp hkv).2
      simpa using this

/-- C9 witness: constructing against `clsC9` through `gmOk` with keyword
arguments `addr=a1` and no server name yields the proxy `pC9`, with the
derived name, the shared partition, and the connect-request trace. -/
theorem c9_witness :
    (RemoteInstrument.init clsC9 gmOk [] "" [("addr", "a1")] 1 []).1 = .ok pC9 ∧
    pC9.serverName = clsC9.defaultServerName [("addr", "a1")] ∧
    pC9.sharedKwargs = [("addr", "a1")] ∧ pC9.ctorKwargs = [] ∧
    (RemoteInstrument.init clsC9 gmOk [] "" [("addr", "a1")] 1 []).2.2 =
      [Effect.recordInstance 1, Effect.request (.connect [] [])] := by
  have h := c9_init_server_name_and_partition clsC9 gmOk [] [("addr", "a1")] 1 []
    pC9 rfl
  exact ⟨rfl, h.1, h.2.1.trans (by decide), h.2.2.1.trans (by decide), h.2.2.2.2.2.2⟩

/-- C9 counterexample: with backing class `clsC9` (whose only shared keyword
argument is `addr`) and keyword arguments `addr=a1, other=x`, the code
derives the server name from the full keyword-argument set —
`default_server_name(**kwargs)` runs before the shared partition — giving
`usedOther`, whereas the name computed from the designated shared subset
alone would be `sharedOnly`. -/
theorem c9_counterexample :
    (RemoteInstrument.init clsC9 gmOk [] ""
        [("addr", "a1"), ("other", "x")] 1 []).1.map (fun p => p.serverName) =
      .ok "usedOther" ∧
    clsC9.defaultServerName [("addr", "a1")] = "sharedOnly" ∧
    ("usedOther" : String) ≠ "sharedOnly" :=
  ⟨rfl, rfl, by decide⟩

/-- C10: construction registers the proxy in the backing class's instance
registry before `connect()` runs — the effect trace starts with the
registration, and the registry always ends as the old registry plus this
proxy — so a construction-time connect failure leaves the failed proxy
registered: registration is not rolled back. -/
theorem c10_record_before_connect (cls : InstrumentClass)
    (gm : String → List (String × String) → ServerManager)
    (args : List String) (serverName0 : String) (kwargs : List (String × String))
    (ref : Nat) (registry : List Nat) :
    (RemoteInstrument.init cls gm args serverName0 kwargs ref registry).2.1 =
      registry ++ [ref] ∧
    (RemoteInstrument.init cls gm args serverName0 kwargs ref registry).2.2.head? =
      some (Effect.recordInstance ref) ∧
    (∀ e, (RemoteInstrument.init cls gm args serverName0 kwargs ref registry).1 =
        .error e →
      ref ∈ (RemoteInstrument.init cls gm args serverName0 kwargs ref registry).2.1) := by
  refine ⟨rfl, rfl, ?_⟩
  intro e _
  show ref ∈ registry ++ [ref]
  simp

/-- C10 witness: a construction whose `connect` fails (through `gmFail`)
returns the server error yet leaves the proxy registered in the backing
class's registry. -/
theorem c10_witness :
    (RemoteInstrument.init clsC9 gmFail [] "srv" [] 5 [9]).1 =
      .error (.serverError "boom") ∧
    (RemoteInstrument.init clsC9 gmFail [] "srv" [] 5 [9]).2.1 = [9, 5] ∧
    5 ∈ (RemoteInstrument.init clsC9 gmFail [] "srv" [] 5 [9]).2.1 :=
  ⟨rfl, rfl,
   (c10_record_before_connect clsC9 gmFail [] "srv" [] 5 [9]).2.2
     (.serverError "boom") rfl⟩

end RemoteProxy
